import Mathlib

/-!
Shallow embedding of martypy's `Marty` client class (src/martypy/marty.py).

The repository ships a single source file, `martypy/marty.py`; the transport
classes (`SocketClient`, `SerialClient`, `TestClient`), the exception classes
and `dict_merge` live in sibling modules that are not part of the sources.
Everything below is translated line by line from `marty.py`; the few places
where a missing sibling module matters are modelled from the spec and say so
in their doc comment.

Conventions of the embedding:
* a Python `bytes`/1-character `chr` value is a `Nat` below 256;
* a raised exception is an `Except.error` carrying a `PyExc`;
* a method that talks to the transport returns the ordered list of
  observable transport events (transport construction, `execute` calls)
  together with its outcome, so "nothing was sent before the error" is the
  statement that the event list is empty.
-/

namespace Martypy

/-- The Python exceptions the embedded code can raise.  `MartyConfigException`,
`MartyCommandException` and `ArgumentOutOfRangeException` come from
`martypy.exceptions`; the rest are Python built-ins. -/
inductive PyExc where
  | martyConfigException (msg : String)
  | martyCommandException (msg : String)
  | argumentOutOfRangeException (msg : String)
  | nameError (missing : String)
  | keyError (key : String)
  | valueError (msg : String)
  | typeError (msg : String)
  | overflowError (msg : String)
  | notImplementedError
  deriving Repr, DecidableEq

/-- One positional argument handed to a transport's `execute`: either a packed
byte (a 1-character string in the Python source), a Python bool passed through
unencoded, or a plain int. -/
inductive Arg where
  | byte (n : Nat)
  | bool (b : Bool)
  | int (n : Int)
  deriving Repr, DecidableEq

/-- An observable transport-facing step of the client.  `construct proto loc`
records that the transport class registered for `proto` was instantiated (per
spec 4.4/4.5 instantiation opens the connection); `exec name args` records one
call of the transport's `execute`. -/
inductive Event where
  | construct (proto loc : String)
  | exec (name : String) (args : List Arg)
  deriving Repr, DecidableEq

/-- The `execute` calls of an event list, transport construction dropped. -/
def execLog (evs : List Event) : List Event :=
  evs.filter fun e => match e with
    | .exec _ _ => true
    | .construct _ _ => false

/-- Is the outcome a raised `ArgumentOutOfRangeException`? -/
def isArgOutOfRange {α : Type} : Except PyExc α → Bool
  | .error (.argumentOutOfRangeException _) => true
  | _ => false

/-! ### The struct module

`marty.py` serialises through Python's `struct.pack` with the fixed formats
`<B`, `<b`, `<H`, `<h` and `<f`.  `struct` is the Python standard library, so
its documented behaviour on an int argument is embedded directly: each format
accepts exactly the ints of its width and raises `struct.error` (here the
error message string) otherwise, producing the little-endian bytes. -/

/-- `struct.pack('<B', num)` for an int `num`: one unsigned byte. -/
def struct_pack_B (num : Int) : Except String Nat :=
  if 0 ≤ num ∧ num ≤ 255 then .ok num.toNat
  else .error "ubyte format requires 0 <= number <= 255"

/-- `struct.pack('<b', num)` for an int `num`: one signed byte, two's
complement. -/
def struct_pack_b (num : Int) : Except String Nat :=
  if -128 ≤ num ∧ num ≤ 127 then .ok (num % 256).toNat
  else .error "byte format requires -128 <= number <= 127"

/-- `struct.pack('<H', num)` for an int `num`: two bytes, least significant
first. -/
def struct_pack_H (num : Int) : Except String (Nat × Nat) :=
  if 0 ≤ num ∧ num ≤ 65535 then .ok (num.toNat % 256, num.toNat / 256)
  else .error "ushort format requires 0 <= number <= 65535"

/-- `struct.pack('<h', num)` for an int `num`: two bytes, two's complement,
least significant first. -/
def struct_pack_h (num : Int) : Except String (Nat × Nat) :=
  if -32768 ≤ num ∧ num ≤ 32767 then
    .ok ((num % 65536).toNat % 256, (num % 65536).toNat / 256)
  else .error "short format requires -32768 <= number <= 32767"

/-! ### Python values handed to `_pack_float`

`_pack_float` is the one packer that first converts its argument with
Python's `float()`, so its argument domain is wider than `Int`. -/

/-- A Python value passed to `Marty._pack_float`: an int, a string, or None. -/
inductive PyVal where
  | int (n : Int)
  | str (s : String)
  | none
  deriving Repr, DecidableEq

/-- The optional exponent tail of a Python float literal: empty, or
`(e|E) [sign] digits`. -/
def floatExpTail (l : List Char) : Bool :=
  match l with
  | [] => true
  | c :: cs =>
      (c = 'e' || c = 'E') &&
        (let cs1 := match cs with
                    | s :: ss => if s = '+' || s = '-' then ss else s :: ss
                    | [] => []
         let de := cs1.takeWhile Char.isDigit
         !de.isEmpty && cs1.drop de.length = [])

/-- Does the string body (sign already stripped) match Python's float literal
grammar `digits [. digits] [exp]` or `[digits] . digits [exp]`? -/
def floatMantissaExp (l : List Char) : Bool :=
  let d1 := l.takeWhile Char.isDigit
  let r1 := l.drop d1.length
  match r1 with
  | '.' :: r2 =>
      let d2 := r2.takeWhile Char.isDigit
      let r3 := r2.drop d2.length
      (!d1.isEmpty || !d2.isEmpty) && floatExpTail r3
  | [] => !d1.isEmpty
  | _ => !d1.isEmpty && floatExpTail r1

/-- Does Python's `float(s)` accept the string `s`?  Models the documented
grammar: optional surrounding whitespace, an optional sign, then a decimal
literal with optional fraction and exponent, or `inf`/`infinity`/`nan` in any
case.  (Underscore digit grouping is not modelled; no claim depends on it.) -/
def pyFloatParses (s : String) : Bool :=
  let l := ((s.toList.dropWhile Char.isWhitespace).reverse.dropWhile
              Char.isWhitespace).reverse
  let l1 := match l with
            | c :: cs => if c = '+' || c = '-' then cs else c :: cs
            | [] => []
  let low := l1.map Char.toLower
  low = "inf".toList || low = "infinity".toList || low = "nan".toList ||
    floatMantissaExp l1

/-- Python's `float(v)`: succeeds on every int whose magnitude rounds to a
finite double (an astronomically large int raises OverflowError) and on every
string the float grammar accepts, and raises TypeError on None.  The converted
value itself is not needed by any claim, so the success payload is `Unit`. -/
def pyFloat : PyVal → Except PyExc Unit
  | .int n =>
      if n.natAbs < 2 ^ 1024 - 2 ^ 970 then .ok ()
      else .error (.overflowError "int too large to convert to float")
  | .str s =>
      if pyFloatParses s then .ok ()
      else .error (.valueError ("could not convert string to float: '" ++ s ++ "'"))
  | .none => .error (.typeError "float() argument must be a string or a number, not 'NoneType'")

/-! ### The URL and the transport registry -/

/-- Strip `sep` from the front of `l`: `some` the remainder when `l` starts
with `sep`. -/
def stripLead : List Char → List Char → Option (List Char)
  | [], l => some l
  | _ :: _, [] => none
  | p :: ps, c :: cs => if p = c then stripLead ps cs else none

/-- Split `l` at the first occurrence of the non-empty separator `sep`:
`some (before, after)` or `none` when `sep` does not occur. -/
def splitFirst (sep : List Char) : List Char → Option (List Char × List Char)
  | [] => none
  | c :: cs =>
      match stripLead sep (c :: cs) with
      | some rest => some ([], rest)
      | none => (splitFirst sep cs).map fun p => (c :: p.1, p.2)

/-- Python's `url.partition('://')` restricted to the two components the
constructor binds (`proto, _, loc`): the text before the first `://` and the
text after it, or `(url, '')` when there is no separator. -/
def partitionUrl (url : String) : String × String :=
  match splitFirst "://".toList url.toList with
  | some (a, b) => (String.mk a, String.mk b)
  | none => (url, "")

/-- Modelled from the spec: `dict_merge` lives in `martypy/utils.py`, which is
not among the sources.  Per the spec (4.5, design note 1) the registry used
for resolution is the merged mapping of the built-in schemes
(`socket`, `serial`, `test` — `Marty.CLIENT_TYPES` in the source) and the
caller-supplied overlay; only its key set matters to the embedded
constructor, so the merge is embedded as the union of the key lists. -/
def mergedSchemes (custom : List String) : List String :=
  ["socket", "serial", "test"] ++ custom

namespace Marty

/-- `Marty._pack_uint16`: two bytes via `struct.pack('<H', num)`, least
significant byte first (`data[:1]`, `data[-1:]`); `struct.error` is caught and
re-raised as `ArgumentOutOfRangeException`. -/
def _pack_uint16 (num : Int) : Except PyExc (Nat × Nat) :=
  match struct_pack_H num with
  | .error e => .error (.argumentOutOfRangeException e)
  | .ok data => .ok data

/-- `Marty._pack_int16`: two bytes via `struct.pack('<h', num)`, least
significant byte first; `struct.error` becomes `ArgumentOutOfRangeException`. -/
def _pack_int16 (num : Int) : Except PyExc (Nat × Nat) :=
  match struct_pack_h num with
  | .error e => .error (.argumentOutOfRangeException e)
  | .ok data => .ok data

/-- `Marty._pack_uint8`: one byte via `struct.pack('<B', num)`;
`struct.error` becomes `ArgumentOutOfRangeException`. -/
def _pack_uint8 (num : Int) : Except PyExc Nat :=
  match struct_pack_B num with
  | .error e => .error (.argumentOutOfRangeException e)
  | .ok data => .ok data

/-- `Marty._pack_int8`: one byte via `struct.pack('<b', num)`;
`struct.error` becomes `ArgumentOutOfRangeException`. -/
def _pack_int8 (num : Int) : Except PyExc Nat :=
  match struct_pack_b num with
  | .error e => .error (.argumentOutOfRangeException e)
  | .ok data => .ok data

/-- `Marty._pack_float`: `struct.pack('<f', float(num))` inside a
`try`/`except struct.error`.  `float(num)` runs first; a ValueError,
TypeError or OverflowError it raises is not a `struct.error`, so it
propagates out of the method unchanged.  On a successful conversion the
four-byte IEEE-754 image is produced; its bit layout is outside this
embedding (no claim consumes the bytes), so success carries `Unit`. -/
def _pack_float (num : PyVal) : Except PyExc Unit :=
  match pyFloat num with
  | .error e => .error e
  | .ok u => .ok u

/-- `Marty.SIDE_CODES` (codes kept as byte values). -/
def SIDE_CODES : List (String × Nat) :=
  [("left", 0x00), ("right", 0x01), ("forward", 0x02), ("back", 0x03),
   ("auto", 0xff)]

/-- `Marty.STOP_TYPE`. -/
def STOP_TYPE : List (String × Nat) :=
  [("clear queue", 0x00), ("clear and stop", 0x01), ("clear and disable", 0x02),
   ("clear and zero", 0x03), ("pause", 0x04), ("pause and disable", 0x05)]

/-- `Marty.GPIO_PIN_MODES` (the `servo` and `pwm` lines are commented out in
the source). -/
def GPIO_PIN_MODES : List (String × Nat) :=
  [("digital in", 0x00), ("analog in", 0x01), ("digital out", 0x02)]

/-- `Marty.ACCEL_AXES`. -/
def ACCEL_AXES : List (String × Nat) := [("x", 0x00), ("y", 0x01), ("z", 0x02)]

/-- Python dict lookup `d[k]` on the embedded tables, as an `Option`. -/
def dictGet (d : List (String × Nat)) (k : String) : Option Nat :=
  (d.find? fun p => p.fst == k).map Prod.snd

/-- `Marty.stop`: defaults a `None` stop type to `'clear and stop'`, resolves
it in `STOP_TYPE` (an unknown key's `KeyError` is caught and re-raised as
`MartyCommandException`), then executes `stop` with the one code byte. -/
def stop (stop_type : Option String) : List Event × Except PyExc Unit :=
  let st := stop_type.getD "clear and stop"
  match dictGet STOP_TYPE st with
  | Option.none =>
      ([], .error (.martyCommandException
        ("Unknown Stop Type '" ++ st ++ "', not in Marty.STOP_TYPE")))
  | some code => ([.exec "stop" [.byte code]], .ok ())

/-- `Marty.move_joint`: packs `move_time` as uint16, then — while evaluating
the arguments of the `execute` call — `joint_id` as uint8 and `postition`
(sic) as int8; only then does `execute('move_joint', ...)` run. -/
def move_joint (joint_id postition move_time : Int) :
    List Event × Except PyExc Unit :=
  match _pack_uint16 move_time with
  | .error e => ([], .error e)
  | .ok (dur_lsb, dur_msb) =>
      match _pack_uint8 joint_id with
      | .error e => ([], .error e)
      | .ok jid =>
          match _pack_int8 postition with
          | .error e => ([], .error e)
          | .ok pos =>
              ([.exec "move_joint" [.byte jid, .byte pos, .byte dur_lsb,
                 .byte dur_msb]], .ok ())

/-- `Marty.walk`: a bare `SIDE_CODES[start_foot]` lookup (an unknown foot
raises `KeyError`), then `move_time` as uint16, then — in the argument list of
`execute` — `num_steps` as uint8, `turn` as int8, `step_length` as int8. -/
def walk (num_steps : Int) (start_foot : String) (turn step_length move_time : Int) :
    List Event × Except PyExc Unit :=
  match dictGet SIDE_CODES start_foot with
  | Option.none => ([], .error (.keyError start_foot))
  | some side_c =>
      match _pack_uint16 move_time with
      | .error e => ([], .error e)
      | .ok (dur_lsb, dur_msb) =>
          match _pack_uint8 num_steps with
          | .error e => ([], .error e)
          | .ok steps =>
              match _pack_int8 turn with
              | .error e => ([], .error e)
              | .ok turn_b =>
                  match _pack_int8 step_length with
                  | .error e => ([], .error e)
                  | .ok len_b =>
                      ([.exec "walk" [.byte steps, .byte turn_b, .byte dur_lsb,
                         .byte dur_msb, .byte len_b, .byte side_c]], .ok ())

/-- `Marty.play_sound`: packs the start frequency, end frequency and duration
as uint16 each, then executes `play_sound` with the six bytes. -/
def play_sound (freq_start freq_end duration : Int) :
    List Event × Except PyExc Unit :=
  match _pack_uint16 freq_start with
  | .error e => ([], .error e)
  | .ok (fs_lsb, fs_msb) =>
      match _pack_uint16 freq_end with
      | .error e => ([], .error e)
      | .ok (fe_lsb, fe_msb) =>
          match _pack_uint16 duration with
          | .error e => ([], .error e)
          | .ok (dur_lsb, dur_msb) =>
              ([.exec "play_sound" [.byte fs_lsb, .byte fs_msb, .byte fe_lsb,
                 .byte fe_msb, .byte dur_lsb, .byte dur_msb]], .ok ())

/-- `Marty.pinmode_gpio`: raises `NotImplementedError` before doing anything
(the `execute` line after the raise is unreachable); `GPIO_PIN_MODES` is never
consulted. -/
def pinmode_gpio (gpio : Int) (mode : String) : List Event × Except PyExc Unit :=
  ([], .error .notImplementedError)

/-- `Marty.get_accelerometer`: resolves the axis in `ACCEL_AXES` (an unknown
axis's `KeyError` is caught and re-raised as `MartyCommandException` whose
message lists the valid keys), then executes `accel` with the code byte.
Python renders `set(self.ACCEL_AXES.keys())` in an unspecified hash order;
the embedding renders the set in table order. -/
def get_accelerometer (axis : String) : List Event × Except PyExc Unit :=
  match dictGet ACCEL_AXES axis with
  | Option.none =>
      ([], .error (.martyCommandException
        ("Axis must be one of \x7b'x', 'y', 'z'\x7d, not '" ++ axis ++ "'")))
  | some ax => ([.exec "accel" [.byte ax]], .ok ())

/-- `Marty.enable_safeties`: executes `enable_safeties` with no argument
bytes; the `enable` parameter is never read. -/
def enable_safeties (enable : Bool) : List Event × Except PyExc Unit :=
  ([.exec "enable_safeties" []], .ok ())

/-- `Marty.enable_motors`: with `clear_queue` set it first runs
`self.stop('clear queue')`, then executes `enable_motors` or
`disable_motors`. -/
def enable_motors (enable clear_queue : Bool) : List Event × Except PyExc Unit :=
  match (if clear_queue then stop (some "clear queue") else ([], .ok ())) with
  | (l, .error e) => (l, .error e)
  | (l, .ok _) =>
      if enable then (l ++ [.exec "enable_motors" []], .ok ())
      else (l ++ [.exec "disable_motors" []], .ok ())

/-- `Marty.lifelike_behaviour`: executes `lifelike_behaviour` passing the
Python bool through unencoded. -/
def lifelike_behaviour (enable : Bool) : List Event × Except PyExc Unit :=
  ([.exec "lifelike_behaviour" [.bool enable]], .ok ())

end Marty

/-- `Marty.__init__`, observable behaviour: partition the url; merge the
registries; on a malformed url raise `MartyConfigException`; on an unknown
scheme the source line `raise MartyConfigtException(...)` names an undefined
identifier (the import is `MartyConfigException`), so Python raises
`NameError` there; otherwise instantiate the transport class (which connects)
and run `enable_safeties(True)`, `enable_motors(True)` and — when
`default_lifelike` is set — `lifelike_behaviour(True)`. -/
def marty_init (url : String) (custom : List String) (default_lifelike : Bool) :
    List Event × Except PyExc Unit :=
  if (partitionUrl url).1 = "" ∨ (partitionUrl url).2 = "" then
    ([], .error (.martyConfigException
      ("Invalid URL format \"" ++ url ++ "\" given")))
  else if (mergedSchemes custom).contains (partitionUrl url).1 = false then
    ([], .error (.nameError "MartyConfigtException"))
  else
    let head := [Event.construct (partitionUrl url).1 (partitionUrl url).2]
    match Marty.enable_safeties true with
    | (l1, .error e) => (head ++ l1, .error e)
    | (l1, .ok _) =>
        match Marty.enable_motors true true with
        | (l2, .error e) => (head ++ l1 ++ l2, .error e)
        | (l2, .ok _) =>
            if default_lifelike then
              match Marty.lifelike_behaviour true with
              | (l3, r) => (head ++ l1 ++ l2 ++ l3, r)
            else (head ++ l1 ++ l2, .ok ())

/-! ### The decode side (spec 4.1/8)

The spec's round-trip laws read each packed value back with the mirror-image
little-endian rule; the decoders below are that rule, written from the spec's
words. -/

/-- Unsigned 8-bit decode of one byte. -/
def decode_u8 (b : Nat) : Int := b

/-- Signed 8-bit (two's complement) decode of one byte. -/
def decode_i8 (b : Nat) : Int := if b < 128 then (b : Int) else (b : Int) - 256

/-- Unsigned 16-bit little-endian decode, least significant byte first. -/
def decode_u16 (lsb msb : Nat) : Int := (lsb : Int) + 256 * msb

/-- Signed 16-bit (two's complement) little-endian decode, least significant
byte first. -/
def decode_i16 (lsb msb : Nat) : Int :=
  if (lsb : Int) + 256 * msb < 32768 then (lsb : Int) + 256 * msb
  else (lsb : Int) + 256 * msb - 65536

/-! ### The claims -/

/-- Claim C1, at the failing input `"bogus://x"`: the constructor's raise line
for an unknown scheme names the undefined identifier `MartyConfigtException`
(the imported name is `MartyConfigException`), so construction fails with
`NameError` rather than the configuration error the claim states — though, as
the claim also states, no transport is constructed and nothing is executed
(the event list is empty). -/
theorem claim_C1_unknown_scheme_raises_NameError :
    marty_init "bogus://x" [] true =
      ([], .error (.nameError "MartyConfigtException")) := by
  rfl

/-- Claim C7: within each of the four option tables — movement side, stop
mode, GPIO pin mode, accelerometer axis — every declared key maps to a
single-byte code (below 256) and the codes of one table are pairwise
distinct. -/
theorem claim_C7_option_tables_unique_bytes :
    ((∀ p ∈ Marty.SIDE_CODES, p.2 < 256) ∧
      (Marty.SIDE_CODES.map Prod.snd).Nodup) ∧
    ((∀ p ∈ Marty.STOP_TYPE, p.2 < 256) ∧
      (Marty.STOP_TYPE.map Prod.snd).Nodup) ∧
    ((∀ p ∈ Marty.GPIO_PIN_MODES, p.2 < 256) ∧
      (Marty.GPIO_PIN_MODES.map Prod.snd).Nodup) ∧
    ((∀ p ∈ Marty.ACCEL_AXES, p.2 < 256) ∧
      (Marty.ACCEL_AXES.map Prod.snd).Nodup) := by
  decide

/-- Claim C9: `enable_safeties` never reads its `enable` parameter — for
either value it executes exactly the `enable_safeties` command with no
argument bytes, so the operation cannot disable the safeties. -/
theorem claim_C9_enable_safeties_ignores_enable (enable : Bool) :
    Marty.enable_safeties enable = ([.exec "enable_safeties" []], .ok ()) ∧
    Marty.enable_safeties enable = Marty.enable_safeties true :=
  ⟨rfl, rfl⟩

/-- Claim C10: `stop` with the stop type omitted (None) behaves exactly like
`stop('clear and stop')`: one `stop` command whose single wire byte is
`0x01`. -/
theorem claim_C10_stop_default_is_clear_and_stop :
    Marty.stop Option.none = Marty.stop (some "clear and stop") ∧
    Marty.stop Option.none = ([.exec "stop" [.byte 0x01]], .ok ()) :=
  ⟨rfl, rfl⟩

/-- Claim C5: each integer packer accepts exactly the integers of its width,
produces bytes below 256 in least-significant-first order that the
mirror-image decode takes back to the input, and raises
`ArgumentOutOfRangeException` outside the width: unsigned 8-bit on [0,255],
signed 8-bit on [-128,127], unsigned 16-bit on [0,65535] and signed 16-bit on
[-32768,32767]. -/
theorem claim_C5_pack_roundtrip_and_bounds (n : Int) :
    ((0 ≤ n ∧ n ≤ 255) →
      ∃ b, Marty._pack_uint8 n = .ok b ∧ b < 256 ∧ decode_u8 b = n) ∧
    (¬(0 ≤ n ∧ n ≤ 255) → isArgOutOfRange (Marty._pack_uint8 n) = true) ∧
    ((-128 ≤ n ∧ n ≤ 127) →
      ∃ b, Marty._pack_int8 n = .ok b ∧ b < 256 ∧ decode_i8 b = n) ∧
    (¬(-128 ≤ n ∧ n ≤ 127) → isArgOutOfRange (Marty._pack_int8 n) = true) ∧
    ((0 ≤ n ∧ n ≤ 65535) →
      ∃ lsb msb, Marty._pack_uint16 n = .ok (lsb, msb) ∧ lsb < 256 ∧
        msb < 256 ∧ decode_u16 lsb msb = n) ∧
    (¬(0 ≤ n ∧ n ≤ 65535) → isArgOutOfRange (Marty._pack_uint16 n) = true) ∧
    ((-32768 ≤ n ∧ n ≤ 32767) →
      ∃ lsb msb, Marty._pack_int16 n = .ok (lsb, msb) ∧ lsb < 256 ∧
        msb < 256 ∧ decode_i16 lsb msb = n) ∧
    (¬(-32768 ≤ n ∧ n ≤ 32767) →
      isArgOutOfRange (Marty._pack_int16 n) = true) := by
  refine ⟨?_, ?_, ?_, ?_, ?_, ?_, ?_, ?_⟩
  · intro h
    refine ⟨n.toNat, ?_, by omega, ?_⟩
    · simp [Marty._pack_uint8, struct_pack_B, h]
    · simp only [decode_u8]; omega
  · intro h
    simp [Marty._pack_uint8, struct_pack_B, h, isArgOutOfRange]
  · intro h
    refine ⟨(n % 256).toNat, ?_, by omega, ?_⟩
    · simp [Marty._pack_int8, struct_pack_b, h]
    · simp only [decode_i8]; split <;> omega
  · intro h
    simp [Marty._pack_int8, struct_pack_b, h, isArgOutOfRange]
  · intro h
    refine ⟨n.toNat % 256, n.toNat / 256, ?_, by omega, by omega, ?_⟩
    · simp [Marty._pack_uint16, struct_pack_H, h]
    · simp only [decode_u16]; omega
  · intro h
    simp [Marty._pack_uint16, struct_pack_H, h, isArgOutOfRange]
  · intro h
    refine ⟨(n % 65536).toNat % 256, (n % 65536).toNat / 256, ?_,
      by omega, by omega, ?_⟩
    · simp [Marty._pack_int16, struct_pack_h, h]
    · simp only [decode_i16]; split <;> omega
  · intro h
    simp [Marty._pack_int16, struct_pack_h, h, isArgOutOfRange]

/-- Claim C5 witness: the round-trip and boundary law evaluated at the
boundary values 255, -128, 65535 and -32768 and just outside the widths at
300, 128, 65536 and -32769. -/
theorem claim_C5_pack_roundtrip_and_bounds_witness :
    isArgOutOfRange (Marty._pack_uint8 300) = true ∧
    isArgOutOfRange (Marty._pack_int8 128) = true ∧
    isArgOutOfRange (Marty._pack_uint16 65536) = true ∧
    isArgOutOfRange (Marty._pack_int16 (-32769)) = true ∧
    (∃ b, Marty._pack_uint8 255 = .ok b ∧ b < 256 ∧ decode_u8 b = 255) ∧
    (∃ b, Marty._pack_int8 (-128) = .ok b ∧ b < 256 ∧ decode_i8 b = -128) ∧
    (∃ lsb msb, Marty._pack_uint16 65535 = .ok (lsb, msb) ∧ lsb < 256 ∧
      msb < 256 ∧ decode_u16 lsb msb = 65535) ∧
    (∃ lsb msb, Marty._pack_int16 (-32768) = .ok (lsb, msb) ∧ lsb < 256 ∧
      msb < 256 ∧ decode_i16 lsb msb = -32768) := by
  refine ⟨(claim_C5_pack_roundtrip_and_bounds 300).2.1 (by decide),
    (claim_C5_pack_roundtrip_and_bounds 128).2.2.2.1 (by decide),
    (claim_C5_pack_roundtrip_and_bounds 65536).2.2.2.2.2.1 (by decide),
    (claim_C5_pack_roundtrip_and_bounds (-32769)).2.2.2.2.2.2.2 (by decide),
    (claim_C5_pack_roundtrip_and_bounds 255).1 (by decide),
    (claim_C5_pack_roundtrip_and_bounds (-128)).2.2.1 (by decide),
    (claim_C5_pack_roundtrip_and_bounds 65535).2.2.2.2.1 (by decide),
    (claim_C5_pack_roundtrip_and_bounds (-32768)).2.2.2.2.2.2.1 (by decide)⟩

/-- Claim C6: whenever the partitioned connection descriptor is missing its
scheme or its location — no `://` separator leaves the location empty, and an
empty scheme or location before or after the separator stays empty — the
constructor raises `MartyConfigException` with the invalid-format message, and
the event list is empty: no transport is constructed. -/
theorem claim_C6_malformed_url_config_error (url : String)
    (custom : List String) (dl : Bool)
    (h : (partitionUrl url).1 = "" ∨ (partitionUrl url).2 = "") :
    marty_init url custom dl =
      ([], .error (.martyConfigException
        ("Invalid URL format \"" ++ url ++ "\" given"))) := by
  unfold marty_init
  rw [if_pos h]

/-- Claim C6 witness: the malformed-descriptor law evaluated at
`"socket://"` (empty location). -/
theorem claim_C6_malformed_url_config_error_witness :
    marty_init "socket://" [] true =
      ([], .error (.martyConfigException
        ("Invalid URL format \"" ++ "socket://" ++ "\" given"))) :=
  claim_C6_malformed_url_config_error "socket://" [] true (Or.inr rfl)

/-- Claim C2 counterexample: construction against the test transport with the
source's default arguments (`default_lifelike=True`) issues four commands —
`enable_safeties`, then `stop` (the queue clear inside `enable_motors`), then
`enable_motors`, then `lifelike_behaviour` — not exactly the two the claim
states. -/
theorem claim_C2_counterexample_four_commands :
    execLog (marty_init "test://x" [] true).1 =
      [.exec "enable_safeties" [], .exec "stop" [.byte 0],
       .exec "enable_motors" [], .exec "lifelike_behaviour" [.bool true]] ∧
    (execLog (marty_init "test://x" [] true).1).length ≠ 2 := by
  exact ⟨rfl, by decide⟩

/-- Claim C2 (amended): a successful construction issues, in order, the
transport construction and then the `execute` calls `enable_safeties`,
`stop` with byte 0 (the queue clear inside `enable_motors(True)`),
`enable_motors`, and — when `default_lifelike` is set, its default — also
`lifelike_behaviour`; the safety-interlock and motor enables thus both happen
before the constructor returns, but they are not the only commands. -/
theorem claim_C2_init_command_sequence (url : String) (custom : List String)
    (dl : Bool)
    (h1 : ¬((partitionUrl url).1 = "" ∨ (partitionUrl url).2 = ""))
    (h2 : (mergedSchemes custom).contains (partitionUrl url).1 = true) :
    marty_init url custom dl =
      ([Event.construct (partitionUrl url).1 (partitionUrl url).2,
        .exec "enable_safeties" [], .exec "stop" [.byte 0],
        .exec "enable_motors" []]
        ++ (if dl then [Event.exec "lifelike_behaviour" [.bool true]] else []),
       .ok ()) := by
  unfold marty_init
  rw [if_neg h1, if_neg (by rw [h2]; decide)]
  cases dl <;> rfl

/-- Claim C2 witness: the amended command sequence evaluated for a
construction over the test transport with `default_lifelike` set. -/
theorem claim_C2_init_command_sequence_witness :
    marty_init "test://x" [] true =
      ([Event.construct (partitionUrl "test://x").1 (partitionUrl "test://x").2,
        .exec "enable_safeties" [], .exec "stop" [.byte 0],
        .exec "enable_motors" []]
        ++ (if true then [Event.exec "lifelike_behaviour" [.bool true]]
            else []),
       .ok ()) :=
  claim_C2_init_command_sequence "test://x" [] true (by decide) (by rfl)

/-- Claim C3 counterexample: `walk` resolves its side key with a bare
`SIDE_CODES[start_foot]` lookup, so the unknown key `"up"` fails with a plain
`KeyError` — not with the `MartyCommandException` the claim states for every
option-table lookup (for any message). -/
theorem claim_C3_counterexample_walk_keyerror :
    Marty.walk 2 "up" 0 40 1500 = ([], .error (.keyError "up")) ∧
    ∀ msg : String,
      (Marty.walk 2 "up" 0 40 1500).2 ≠
        .error (.martyCommandException msg) := by
  refine ⟨rfl, fun msg h => ?_⟩
  rw [show (Marty.walk 2 "up" 0 40 1500).2 = .error (.keyError "up") from rfl]
    at h
  exact PyExc.noConfusion (Except.error.inj h)

/-- Claim C3 (amended): every option-table lookup still fails before anything
reaches the transport's `execute` (the event list is empty), but the failure
shapes differ from the claim: `stop` raises `MartyCommandException` naming the
table without enumerating its keys, `get_accelerometer` raises
`MartyCommandException` whose message does enumerate the valid axis keys,
`walk`'s side lookup raises a plain `KeyError` carrying just the key, and no
operation ever looks up `GPIO_PIN_MODES` — `pinmode_gpio` raises
`NotImplementedError` for every input. -/
theorem claim_C3_lookup_failures_before_execute :
    (∀ k, Marty.dictGet Marty.STOP_TYPE k = Option.none →
      Marty.stop (some k) = ([], .error (.martyCommandException
        ("Unknown Stop Type '" ++ k ++ "', not in Marty.STOP_TYPE")))) ∧
    (∀ k, Marty.dictGet Marty.ACCEL_AXES k = Option.none →
      Marty.get_accelerometer k = ([], .error (.martyCommandException
        ("Axis must be one of \x7b'x', 'y', 'z'\x7d, not '" ++ k ++ "'")))) ∧
    (∀ k, Marty.dictGet Marty.SIDE_CODES k = Option.none →
      ∀ ns t sl mt : Int, Marty.walk ns k t sl mt =
        ([], .error (.keyError k))) ∧
    (∀ (g : Int) (m : String), Marty.pinmode_gpio g m =
      ([], .error .notImplementedError)) := by
  refine ⟨fun k hk => ?_, fun k hk => ?_, fun k hk ns t sl mt => ?_,
    fun g m => rfl⟩
  · simp only [Marty.stop, Option.getD_some, hk]
  · unfold Marty.get_accelerometer
    rw [hk]
  · unfold Marty.walk
    rw [hk]

/-- Claim C3 witness: the amended lookup-failure law evaluated at the unknown
keys `"halt"` (stop type), `"w"` (axis) and `"forwards"` (side), and at a
concrete `pinmode_gpio` call. -/
theorem claim_C3_lookup_failures_before_execute_witness :
    Marty.stop (some "halt") = ([], .error (.martyCommandException
      ("Unknown Stop Type '" ++ "halt" ++ "', not in Marty.STOP_TYPE"))) ∧
    Marty.get_accelerometer "w" = ([], .error (.martyCommandException
      ("Axis must be one of \x7b'x', 'y', 'z'\x7d, not '" ++ "w" ++ "'"))) ∧
    Marty.walk 2 "forwards" 0 40 1500 =
      ([], .error (.keyError "forwards")) ∧
    Marty.pinmode_gpio 3 "digital in" =
      ([], .error .notImplementedError) :=
  ⟨claim_C3_lookup_failures_before_execute.1 "halt" rfl,
   claim_C3_lookup_failures_before_execute.2.1 "w" rfl,
   claim_C3_lookup_failures_before_execute.2.2.1 "forwards" rfl 2 0 40 1500,
   claim_C3_lookup_failures_before_execute.2.2.2 3 "digital in"⟩

/-- Claim C4 counterexample: `_pack_float("abc")` fails with `ValueError`
(raised by `float()` and caught by nothing — the `except` clause catches only
`struct.error`), not with the `ArgumentOutOfRangeException` the claim states
for non-numeric input. -/
theorem claim_C4_counterexample_valueerror :
    Marty._pack_float (.str "abc") =
      .error (.valueError ("could not convert string to float: '" ++
        "abc" ++ "'")) ∧
    isArgOutOfRange (Marty._pack_float (.str "abc")) = false :=
  ⟨rfl, rfl⟩

/-- Helper: the only exceptions `float()` raises are ValueError, TypeError
and OverflowError. -/
theorem pyFloat_error_shape (v : PyVal) (e : PyExc)
    (h : pyFloat v = .error e) :
    (∃ msg, e = .valueError msg) ∨ (∃ msg, e = .typeError msg) ∨
      (∃ msg, e = .overflowError msg) := by
  cases v with
  | int n =>
      by_cases hc : n.natAbs < 2 ^ 1024 - 2 ^ 970
      · simp [pyFloat, hc] at h
      · simp [pyFloat, hc] at h
        exact Or.inr (Or.inr ⟨_, h.symm⟩)
  | str s =>
      by_cases hp : pyFloatParses s = true
      · simp [pyFloat, hp] at h
      · simp [pyFloat, hp] at h
        exact Or.inl ⟨_, h.symm⟩
  | none =>
      simp [pyFloat] at h
      exact Or.inr (Or.inl ⟨_, h.symm⟩)

/-- Claim C4 (amended): whenever `float()` rejects `_pack_float`'s argument,
the exception it raises — a `ValueError` for an unconvertible string, a
`TypeError` for None, an `OverflowError` for an astronomically large int —
propagates out of `_pack_float` unchanged, because the method's `except`
clause converts only `struct.error` into `ArgumentOutOfRangeException`; so a
non-numeric input never produces the `ArgumentOutOfRange` error. -/
theorem claim_C4_pack_float_nonnumeric (v : PyVal) (e : PyExc)
    (h : pyFloat v = .error e) :
    Marty._pack_float v = .error e ∧
    isArgOutOfRange (Marty._pack_float v) = false ∧
    ((∃ msg, e = .valueError msg) ∨ (∃ msg, e = .typeError msg) ∨
      (∃ msg, e = .overflowError msg)) := by
  have h1 : Marty._pack_float v = .error e := by
    unfold Marty._pack_float
    rw [h]
  refine ⟨h1, ?_, pyFloat_error_shape v e h⟩
  rw [h1]
  rcases pyFloat_error_shape v e h with ⟨msg, rfl⟩ | ⟨msg, rfl⟩ | ⟨msg, rfl⟩ <;>
    rfl

/-- Claim C4 witness: the amended non-numeric law evaluated at the
unconvertible string `"abc"`. -/
theorem claim_C4_pack_float_nonnumeric_witness :
    Marty._pack_float (.str "abc") =
      .error (.valueError ("could not convert string to float: '" ++
        "abc" ++ "'")) ∧
    isArgOutOfRange (Marty._pack_float (.str "abc")) = false ∧
    ((∃ msg, (PyExc.valueError ("could not convert string to float: '" ++
        "abc" ++ "'")) = .valueError msg) ∨
      (∃ msg, (PyExc.valueError ("could not convert string to float: '" ++
        "abc" ++ "'")) = .typeError msg) ∨
      (∃ msg, (PyExc.valueError ("could not convert string to float: '" ++
        "abc" ++ "'")) = .overflowError msg)) :=
  claim_C4_pack_float_nonnumeric (.str "abc") _ rfl

/-- Claim C8: in the command methods that pack numeric arguments —
`move_joint`, `play_sound` and (once its side key resolves) `walk` — every
numeric argument is packed while the arguments of the `execute` call are
evaluated, so whenever one of them falls outside its wire width the call
fails with `ArgumentOutOfRangeException` and the event list is empty: the
transport's `execute` is never invoked. -/
theorem claim_C8_out_of_range_blocks_execute
    (jid pos mt fs fe dur ns turn sl mt2 : Int) (foot : String) :
    ((¬(0 ≤ jid ∧ jid ≤ 255) ∨ ¬(-128 ≤ pos ∧ pos ≤ 127) ∨
        ¬(0 ≤ mt ∧ mt ≤ 65535)) →
      (Marty.move_joint jid pos mt).1 = [] ∧
        isArgOutOfRange (Marty.move_joint jid pos mt).2 = true) ∧
    ((¬(0 ≤ fs ∧ fs ≤ 65535) ∨ ¬(0 ≤ fe ∧ fe ≤ 65535) ∨
        ¬(0 ≤ dur ∧ dur ≤ 65535)) →
      (Marty.play_sound fs fe dur).1 = [] ∧
        isArgOutOfRange (Marty.play_sound fs fe dur).2 = true) ∧
    ((Marty.dictGet Marty.SIDE_CODES foot).isSome = true →
      (¬(0 ≤ ns ∧ ns ≤ 255) ∨ ¬(-128 ≤ turn ∧ turn ≤ 127) ∨
        ¬(-128 ≤ sl ∧ sl ≤ 127) ∨ ¬(0 ≤ mt2 ∧ mt2 ≤ 65535)) →
      (Marty.walk ns foot turn sl mt2).1 = [] ∧
        isArgOutOfRange (Marty.walk ns foot turn sl mt2).2 = true) := by
  refine ⟨?_, ?_, ?_⟩
  · intro h
    rcases h with hbad | hbad | hbad
    · by_cases hmt : 0 ≤ mt ∧ mt ≤ 65535 <;>
        refine ⟨?_, ?_⟩ <;>
          simp [Marty.move_joint, Marty._pack_uint16, Marty._pack_uint8,
            Marty._pack_int8, struct_pack_H, struct_pack_B, struct_pack_b,
            isArgOutOfRange, hmt, hbad]
    · by_cases hmt : 0 ≤ mt ∧ mt ≤ 65535 <;>
      by_cases hjid : 0 ≤ jid ∧ jid ≤ 255 <;>
        refine ⟨?_, ?_⟩ <;>
          simp [Marty.move_joint, Marty._pack_uint16, Marty._pack_uint8,
            Marty._pack_int8, struct_pack_H, struct_pack_B, struct_pack_b,
            isArgOutOfRange, hmt, hjid, hbad]
    · refine ⟨?_, ?_⟩ <;>
        simp [Marty.move_joint, Marty._pack_uint16, struct_pack_H,
          isArgOutOfRange, hbad]
  · intro h
    rcases h with hbad | hbad | hbad
    · refine ⟨?_, ?_⟩ <;>
        simp [Marty.play_sound, Marty._pack_uint16, struct_pack_H,
          isArgOutOfRange, hbad]
    · by_cases hfs : 0 ≤ fs ∧ fs ≤ 65535 <;>
        refine ⟨?_, ?_⟩ <;>
          simp [Marty.play_sound, Marty._pack_uint16, struct_pack_H,
            isArgOutOfRange, hfs, hbad]
    · by_cases hfs : 0 ≤ fs ∧ fs ≤ 65535 <;>
      by_cases hfe : 0 ≤ fe ∧ fe ≤ 65535 <;>
        refine ⟨?_, ?_⟩ <;>
          simp [Marty.play_sound, Marty._pack_uint16, struct_pack_H,
            isArgOutOfRange, hfs, hfe, hbad]
  · intro hfoot h
    obtain ⟨c, hc⟩ := Option.isSome_iff_exists.mp hfoot
    rcases h with hbad | hbad | hbad | hbad
    · by_cases hmt2 : 0 ≤ mt2 ∧ mt2 ≤ 65535 <;>
        refine ⟨?_, ?_⟩ <;>
          simp [Marty.walk, hc, Marty._pack_uint16, Marty._pack_uint8,
            Marty._pack_int8, struct_pack_H, struct_pack_B, struct_pack_b,
            isArgOutOfRange, hmt2, hbad]
    · by_cases hmt2 : 0 ≤ mt2 ∧ mt2 ≤ 65535 <;>
      by_cases hns : 0 ≤ ns ∧ ns ≤ 255 <;>
        refine ⟨?_, ?_⟩ <;>
          simp [Marty.walk, hc, Marty._pack_uint16, Marty._pack_uint8,
            Marty._pack_int8, struct_pack_H, struct_pack_B, struct_pack_b,
            isArgOutOfRange, hmt2, hns, hbad]
    · by_cases hmt2 : 0 ≤ mt2 ∧ mt2 ≤ 65535 <;>
      by_cases hns : 0 ≤ ns ∧ ns ≤ 255 <;>
      by_cases hturn : -128 ≤ turn ∧ turn ≤ 127 <;>
        refine ⟨?_, ?_⟩ <;>
          simp [Marty.walk, hc, Marty._pack_uint16, Marty._pack_uint8,
            Marty._pack_int8, struct_pack_H, struct_pack_B, struct_pack_b,
            isArgOutOfRange, hmt2, hns, hturn, hbad]
    · refine ⟨?_, ?_⟩ <;>
        simp [Marty.walk, hc, Marty._pack_uint16, struct_pack_H,
          isArgOutOfRange, hbad]

/-- Claim C8 witness: the range guard evaluated at `move_joint(8, 30, 70000)`
and `play_sound(440, 880, 70000)` (duration beyond uint16) and at
`walk(2, 'left', 200, 40, 1500)` (turn beyond int8): each fails with
`ArgumentOutOfRangeException` and an empty event list. -/
theorem claim_C8_out_of_range_blocks_execute_witness :
    ((Marty.move_joint 8 30 70000).1 = [] ∧
      isArgOutOfRange (Marty.move_joint 8 30 70000).2 = true) ∧
    ((Marty.play_sound 440 880 70000).1 = [] ∧
      isArgOutOfRange (Marty.play_sound 440 880 70000).2 = true) ∧
    ((Marty.walk 2 "left" 200 40 1500).1 = [] ∧
      isArgOutOfRange (Marty.walk 2 "left" 200 40 1500).2 = true) := by
  have h := claim_C8_out_of_range_blocks_execute 8 30 70000 440 880 70000
    2 200 40 1500 "left"
  exact ⟨h.1 (Or.inr (Or.inr (by decide))),
    h.2.1 (Or.inr (Or.inr (by decide))),
    h.2.2 rfl (Or.inr (Or.inl (by decide)))⟩

end Martypy
